import Mathlib

/-!
Shallow embedding of the spy-word-game server (`src/server.js`).

The server keeps all state in memory: a registry `gameSessions` mapping a
6-character session code to a `GameSession` object, and a global word pool.
Randomness (`crypto.randomBytes`) is modelled as an explicit stream of
naturals; JavaScript `Map`s and `Set`s are modelled as insertion-ordered
association lists and insertion-ordered duplicate-free lists; `setTimeout`
handles are modelled as identifiers recorded in a multiset of pending timers
on the world state, so that stale callbacks can be observed.
-/

namespace SpyServer

/-- Stream-based model of the crypto byte source: `stream` supplies the raw
random values, `pos` is how many draws have been consumed. -/
structure Rng where
  stream : Nat → Nat
  pos : Nat

/-- One 32-bit draw, as produced by `crypto.randomBytes(4).readUInt32BE(0)`. -/
def Rng.next32 (r : Rng) : Nat × Rng :=
  (r.stream r.pos % 4294967296, ⟨r.stream, r.pos + 1⟩)

/-- `getSecureRandom(max)` from server.js: a 32-bit draw reduced mod `max`. -/
def getSecureRandom (r : Rng) (max : Nat) : Nat × Rng :=
  let (v, r2) := r.next32
  (v % max, r2)

/-- One random byte, as produced by `crypto.randomBytes`. -/
def randomByte (r : Rng) : Nat × Rng :=
  (r.stream r.pos % 256, ⟨r.stream, r.pos + 1⟩)

/-- Uppercase hexadecimal digit, for `toString('hex').toUpperCase()`. -/
def hexDigit (n : Nat) : String :=
  ["0", "1", "2", "3", "4", "5", "6", "7", "8", "9",
   "A", "B", "C", "D", "E", "F"].getD n "0"

/-- A byte rendered as two uppercase hex characters. -/
def byteHex (b : Nat) : String := hexDigit (b / 16) ++ hexDigit (b % 16)

/-- `generateSessionId` from server.js: three random bytes rendered as a
6-character uppercase hexadecimal string. -/
def generateSessionId (r : Rng) : String × Rng :=
  let (b0, r1) := randomByte r
  let (b1, r2) := randomByte r1
  let (b2, r3) := randomByte r2
  (byteHex b0 ++ byteHex b1 ++ byteHex b2, r3)

/-- The in-place exchange `[a[i], a[j]] = [a[j], a[i]]` on a list. -/
def listSwap (l : List String) (i j : Nat) : List String :=
  let a := l.getD i ""
  let b := l.getD j ""
  (l.set i b).set j a

/-- Loop body of `secureshuffle`: the Fisher-Yates index `i` counts down from
`l.length - 1` to `1`; at each step `j = getSecureRandom(i + 1)` and the
entries at `i` and `j` are exchanged. -/
def shuffleAux (r : Rng) (l : List String) : Nat → List String × Rng
  | 0 => (l, r)
  | i + 1 =>
    let (j, r2) := getSecureRandom r (i + 2)
    shuffleAux r2 (listSwap l (i + 1) j) i

/-- `secureshuffle` from server.js: Fisher-Yates over a copy of the input. -/
def secureshuffle (r : Rng) (l : List String) : List String × Rng :=
  shuffleAux r l (l.length - 1)

/-- JavaScript `Set.add`: append unless already present. -/
def setAdd (l : List String) (x : String) : List String :=
  if x ∈ l then l else l ++ [x]

/-- JavaScript `Map.get`. -/
def mapGet {α : Type} (m : List (String × α)) (k : String) : Option α :=
  (m.find? (fun e => e.1 = k)).map (fun e => e.2)

/-- JavaScript `Map.set`: replace the entry in place when the key is present,
append otherwise. -/
def mapSet {α : Type} (m : List (String × α)) (k : String) (v : α) :
    List (String × α) :=
  if m.any (fun e => e.1 = k) then
    m.map (fun e => if e.1 = k then (k, v) else e)
  else m ++ [(k, v)]

/-- ASCII lowering of one character, the effect of
`String.prototype.toLowerCase` on the ASCII range. -/
def lcChar (c : Char) : Char :=
  if 65 ≤ c.toNat ∧ c.toNat ≤ 90 then Char.ofNat (c.toNat + 32) else c

/-- Whitespace test used by the trim model. -/
def wsChar (c : Char) : Bool :=
  c = ' ' ∨ c = '\t' ∨ c = '\n' ∨ c = '\r'

/-- Executable model of `nickname.toLowerCase().trim()`: lowercase every
character, then strip leading and trailing whitespace. -/
def normNick (s : String) : String :=
  ⟨((s.data.map lcChar).dropWhile wsChar).reverse.dropWhile wsChar
    |>.reverse⟩

/-- The `phase` field: 'lobby', 'game' or 'ended'. -/
inductive Phase where
  | lobby
  | game
  | ended
  deriving DecidableEq, Repr

/-- One roster entry: `{socketId, nickname, isHost}`. -/
structure Player where
  socketId : String
  nickname : String
  isHost : Bool
  deriving DecidableEq, Repr

/-- The `GameSession` class state. `players` is the active roster (a `Map`
keyed by socket id), `allPlayerNicknames` the persistent set of every
nickname that ever joined, `spies` the current spy socket ids, and
`spyNicknames` the persistent spy nicknames for the current round.
`gameTimer` holds the id of the most recently scheduled round-end timeout. -/
structure GameSession where
  sessionId : String
  duration : Nat
  host : String
  players : List (String × Player)
  allPlayerNicknames : List String
  spies : List String
  spyNicknames : List String
  currentWord : Option String
  previousWord : Option String
  phase : Phase
  gameTimer : Option Nat
  gameStartTime : Option Nat
  registrationOpen : Bool
  deriving DecidableEq, Repr

namespace GameSession

/-- The `GameSession` constructor. -/
def new (sessionId : String) (duration : Nat) (host : String) : GameSession where
  sessionId := sessionId
  duration := duration
  host := host
  players := []
  allPlayerNicknames := []
  spies := []
  spyNicknames := []
  currentWord := none
  previousWord := none
  phase := .lobby
  gameTimer := none
  gameStartTime := none
  registrationOpen := true

/-- `addPlayer`: rejects when registration is closed or when the lowercased,
trimmed nickname collides with an active roster member; otherwise records the
player in the roster and the nickname in the persistent set. -/
def addPlayer (s : GameSession) (socketId nickname : String) :
    Except String GameSession :=
  if !s.registrationOpen then .error "Registration is closed"
  else if s.players.any
      (fun p => normNick p.2.nickname = normNick nickname) then
    .error "Nickname already taken"
  else .ok { s with
    players := mapSet s.players socketId
      ⟨socketId, nickname, decide (socketId = s.host)⟩,
    allPlayerNicknames := setAdd s.allPlayerNicknames nickname }

/-- `removePlayer`: drops the socket from the active roster and from `spies`,
leaving `allPlayerNicknames` and `spyNicknames` untouched. -/
def removePlayer (s : GameSession) (socketId : String) : GameSession :=
  { s with
    players := s.players.filter (fun e => e.1 ≠ socketId),
    spies := s.spies.filter (fun x => x ≠ socketId) }

/-- `getPlayerList`: the roster projected to `{nickname, isHost}` pairs. -/
def getPlayerList (s : GameSession) : List (String × Bool) :=
  s.players.map (fun e => (e.2.nickname, e.2.isHost))

/-- `selectSpies`: spy count is `max(floor(n / 3), 1)` over the roster size at
call time; the shuffled socket ids are taken from the front and their
nicknames snapshotted into `spyNicknames` (both sets cleared first). When the
roster is empty the JavaScript loop would insert the single value `undefined`;
here the selection is simply empty, a case no operation of the server reaches
with an observable difference for the verified claims. -/
def selectSpies (s : GameSession) (r : Rng) : GameSession × Rng :=
  let playerIds := s.players.map Prod.fst
  let spyCount := max (playerIds.length / 3) 1
  let (shuffled, r2) := secureshuffle r playerIds
  let chosen := shuffled.take spyCount
  let newSpies := chosen.foldl setAdd []
  let newSpyNicknames := chosen.foldl
    (fun acc id =>
      match mapGet s.players id with
      | some p => setAdd acc p.nickname
      | none => acc) []
  ({ s with spies := newSpies, spyNicknames := newSpyNicknames }, r2)

end GameSession

/-- Result of the `do`/`while` draw loop in `selectRandomWord`, with explicit
fuel standing in for the probabilistic termination of the retry loop. -/
inductive DrawResult where
  | ok (s : GameSession) (r : Rng)
  | thrown (msg : String)
  | fuelOut

/-- The draw loop: pick `words[getSecureRandom(words.length)]`, retry while
the pick strictly equals `previousWord` and the pool has more than one entry
(a JavaScript `===` against `null` is false, hence the `Option` equality). -/
def drawLoop (words : List String) (prev : Option String) (r : Rng) :
    Nat → Option (String × Rng)
  | 0 => none
  | fuel + 1 =>
    let (i, r2) := getSecureRandom r words.length
    let sel := words.getD i ""
    if some sel = prev ∧ words.length > 1 then drawLoop words prev r2 fuel
    else some (sel, r2)

/-- `selectRandomWord`: throws on an empty pool, otherwise runs the draw loop
against `previousWord` and only afterwards rotates
`previousWord := currentWord; currentWord := selected`. -/
def selectRandomWord (words : List String) (s : GameSession) (r : Rng)
    (fuel : Nat) : DrawResult :=
  if words.length = 0 then .thrown "No words available"
  else
    match drawLoop words s.previousWord r fuel with
    | none => .fuelOut
    | some (sel, r2) =>
      .ok { s with previousWord := s.currentWord, currentWord := some sel } r2

/-- `getSpyNicknames`: the persistent spy-nickname snapshot. -/
def GameSession.getSpyNicknames (s : GameSession) : List String :=
  s.spyNicknames

/-- Outbound socket events, tagged with their audience: `errorEv`,
`sessionCreated`, `joinedSession` and `roleAssigned` go to one socket,
the rest are room broadcasts `io.to(sessionId).emit(...)`. -/
inductive GEvent where
  | errorEv (toSocket : String) (msg : String)
  | sessionCreated (toSocket : String) (sessionId : String)
  | joinedSession (toSocket : String) (sessionId : String) (nickname : String)
      (phase : Phase)
  | playersUpdated (toSession : String) (players : List (String × Bool))
      (count : Nat)
  | roleAssigned (toSocket : String) (role : String) (word : Option String)
  | gameStarted (toSession : String) (durationSecs : Nat)
  | timerStarted (toSession : String) (durationSecs : Nat) (startTime : Nat)
  | newRoundStarted (toSession : String)
  | gameEnded (toSession : String) (spies : List String)
  | gameAborted (toSession : String)
  | gameClosed (toSession : String)
  deriving DecidableEq, Repr

/-- True exactly on a `joinedSession` event. -/
def GEvent.isJoined : GEvent → Bool
  | .joinedSession _ _ _ _ => true
  | _ => false

/-- Process-wide state: the `gameSessions` registry plus the runtime's
timer queue. `pendingTimers` holds `(timerId, sessionId)` for every
`setTimeout` that has neither fired nor been cleared; `nextTimerId` is the
allocator for fresh handles. -/
structure World where
  gameSessions : List (String × GameSession)
  pendingTimers : List (Nat × String)
  nextTimerId : Nat
  deriving DecidableEq, Repr

/-- `if (session.gameTimer) clearTimeout(session.gameTimer)`. -/
def clearTimer (pend : List (Nat × String)) : Option Nat → List (Nat × String)
  | some tid => pend.filter (fun p => p.1 ≠ tid)
  | none => pend

/-- Result of a handler that may reach `selectRandomWord`: `done` is a
normal return, `crash` is an exception escaping the handler uncaught (the
carried world is the state at the throw point, mutations included), and
`fuelOut` means the bounded model of the retry loop ran out of fuel. -/
inductive HResult where
  | done (w : World) (events : List GEvent) (r : Rng)
  | crash (w : World) (events : List GEvent) (r : Rng) (msg : String)
  | fuelOut

/-- World carried by a handler result (`fuelOut` yields the empty world). -/
def HResult.worldOf : HResult → World
  | .done w _ _ => w
  | .crash w _ _ _ => w
  | .fuelOut => ⟨[], [], 0⟩

/-- Events emitted before the handler returned or crashed. -/
def HResult.eventsOf : HResult → List GEvent
  | .done _ evs _ => evs
  | .crash _ evs _ _ => evs
  | .fuelOut => []

/-- Message of an escaped exception, when the handler crashed. -/
def HResult.crashMsg : HResult → Option String
  | .crash _ _ _ msg => some msg
  | _ => none

/-- True when the handler returned normally. -/
def HResult.isDone : HResult → Bool
  | .done _ _ _ => true
  | _ => false

/-- The `createSession` handler: validates the duration, generates a code and
stores the fresh session — with no collision check, so `Map.set` silently
replaces any session already registered under the generated code. -/
def handleCreateSession (w : World) (caller : String) (duration : Nat)
    (r : Rng) : World × List GEvent × Rng :=
  if duration = 0 ∨ duration < 5 ∨ 60 < duration then
    (w, [.errorEv caller "Game duration must be between 5 and 60 minutes"], r)
  else
    let (sid, r2) := generateSessionId r
    let s := GameSession.new sid duration caller
    ({ w with gameSessions := mapSet w.gameSessions sid s },
     [.sessionCreated caller sid], r2)

/-- The `joinSession` handler: field presence check, registry lookup, then
`addPlayer` inside try/catch; on success the caller gets `joinedSession` and
the room gets the refreshed roster. -/
def handleJoinSession (w : World) (caller sid nick : String) :
    World × List GEvent :=
  if sid = "" ∨ nick = "" then
    (w, [.errorEv caller "Session ID and nickname are required"])
  else
    match mapGet w.gameSessions sid with
    | none => (w, [.errorEv caller "Session not found"])
    | some s =>
      match s.addPlayer caller nick with
      | .error msg => (w, [.errorEv caller msg])
      | .ok s2 =>
        ({ w with gameSessions := mapSet w.gameSessions sid s2 },
         [.joinedSession caller sid nick s2.phase,
          .playersUpdated sid s2.getPlayerList s2.players.length])

/-- Role distribution loop of `startGame`: spies get `roleAssigned {spy}`,
the rest get the word; sockets that are no longer live are skipped. -/
def rolesLoop (live : String → Bool) (s : GameSession) : List GEvent :=
  s.players.foldl
    (fun evs e =>
      if live e.1 then
        if s.spies.contains e.1 then
          evs ++ [.roleAssigned e.1 "spy" none]
        else
          evs ++ [.roleAssigned e.1 "civilian" s.currentWord]
      else evs) []

/-- The `startGame` handler. Note the mutation order taken from the source:
registration is closed and `selectSpies` runs before `selectRandomWord`,
whose exception (empty pool) is not caught, so a throw escapes with those
mutations already applied and no error event emitted. -/
def handleStartGame (words : List String) (w : World) (caller sid : String)
    (live : String → Bool) (r : Rng) (fuel : Nat) : HResult :=
  match mapGet w.gameSessions sid with
  | none => .done w [.errorEv caller "Unauthorized or session not found"] r
  | some s =>
    if s.host ≠ caller then
      .done w [.errorEv caller "Unauthorized or session not found"] r
    else if s.players.length < 4 then
      .done w [.errorEv caller "Minimum 4 players required"] r
    else
      let s1 := { s with registrationOpen := false }
      let (s2, r1) := s1.selectSpies r
      match selectRandomWord words s2 r1 fuel with
      | .thrown msg =>
        .crash { w with gameSessions := mapSet w.gameSessions sid s2 } [] r1 msg
      | .fuelOut => .fuelOut
      | .ok s3 r2 =>
        let s4 := { s3 with phase := .game }
        .done { w with gameSessions := mapSet w.gameSessions sid s4 }
          (rolesLoop live s4 ++ [.gameStarted sid (s4.duration * 60)]) r2

/-- The `startTimer` handler: records the start time and schedules a fresh
round-end timeout. The source never clears a previously stored timer here;
the old handle is simply overwritten. -/
def handleStartTimer (w : World) (caller sid : String) (now : Nat) :
    World × List GEvent :=
  match mapGet w.gameSessions sid with
  | none => (w, [.errorEv caller "Unauthorized or invalid session state"])
  | some s =>
    if s.host ≠ caller ∨ s.phase ≠ .game then
      (w, [.errorEv caller "Unauthorized or invalid session state"])
    else
      let tid := w.nextTimerId
      let s2 := { s with gameStartTime := some now, gameTimer := some tid }
      ({ w with gameSessions := mapSet w.gameSessions sid s2,
                pendingTimers := w.pendingTimers ++ [(tid, sid)],
                nextTimerId := tid + 1 },
       [.timerStarted sid (s.duration * 60) now])

/-- Elapse of a scheduled timeout that is still pending: the callback sets
the phase to `ended` and broadcasts `gameEnded` with the persistent spy
nicknames. Firing an id that is not pending is a no-op. -/
def fireTimer (w : World) (tid : Nat) : World × List GEvent :=
  match w.pendingTimers.find? (fun p => p.1 = tid) with
  | none => (w, [])
  | some pr =>
    let pend2 := w.pendingTimers.filter (fun p => p.1 ≠ tid)
    match mapGet w.gameSessions pr.2 with
    | none => ({ w with pendingTimers := pend2 }, [])
    | some s =>
      let s2 := { s with phase := .ended }
      ({ w with gameSessions := mapSet w.gameSessions pr.2 s2,
                pendingTimers := pend2 },
       [.gameEnded pr.2 s2.getSpyNicknames])

/-- Role distribution loop of `newRound`: live sockets get their role, dead
sockets are pruned from `players` and `spies` on the way. -/
def rolesLoopPrune (live : String → Bool) (s : GameSession) :
    GameSession × List GEvent :=
  s.players.foldl
    (fun acc e =>
      if live e.1 then
        if acc.1.spies.contains e.1 then
          (acc.1, acc.2 ++ [.roleAssigned e.1 "spy" none])
        else
          (acc.1, acc.2 ++ [.roleAssigned e.1 "civilian" acc.1.currentWord])
      else
        ({ acc.1 with
            players := acc.1.players.filter (fun q => q.1 ≠ e.1),
            spies := acc.1.spies.filter (fun x => x ≠ e.1) }, acc.2))
    (s, [])

/-- The `newRound` handler: clears the stored timer, re-enters the game
phase, reassigns roles and redraws the word (the uncaught-throw window of
`startGame` exists here too), then prunes dead sockets while distributing
roles and broadcasts `newRoundStarted` followed by `gameStarted`. -/
def handleNewRound (words : List String) (w : World) (caller sid : String)
    (live : String → Bool) (r : Rng) (fuel : Nat) : HResult :=
  match mapGet w.gameSessions sid with
  | none => .done w [.errorEv caller "Unauthorized or session not found"] r
  | some s =>
    if s.host ≠ caller then
      .done w [.errorEv caller "Unauthorized or session not found"] r
    else
      let pend1 := clearTimer w.pendingTimers s.gameTimer
      let s1 := { s with phase := .game }
      let (s2, r1) := s1.selectSpies r
      match selectRandomWord words s2 r1 fuel with
      | .thrown msg =>
        .crash { w with gameSessions := mapSet w.gameSessions sid s2,
                        pendingTimers := pend1 } [] r1 msg
      | .fuelOut => .fuelOut
      | .ok s3 r2 =>
        let s4 := { s3 with gameStartTime := none, registrationOpen := false }
        let (s5, roleEvs) := rolesLoopPrune live s4
        .done { w with gameSessions := mapSet w.gameSessions sid s5,
                       pendingTimers := pend1 }
          (roleEvs ++ [.newRoundStarted sid,
                       .gameStarted sid (s5.duration * 60)]) r2

/-- The `abortGame` handler: host-only; clears the timer, broadcasts
`gameAborted` and deletes the session from the registry. -/
def handleAbortGame (w : World) (caller sid : String) : World × List GEvent :=
  match mapGet w.gameSessions sid with
  | none => (w, [.errorEv caller "Unauthorized or session not found"])
  | some s =>
    if s.host ≠ caller then
      (w, [.errorEv caller "Unauthorized or session not found"])
    else
      (⟨w.gameSessions.filter (fun e => e.1 ≠ sid),
        clearTimer w.pendingTimers s.gameTimer, w.nextTimerId⟩,
       [.gameAborted sid])

/-- The `closeGame` handler: host-only; clears the timer, broadcasts
`gameClosed` and deletes the session from the registry. -/
def handleCloseGame (w : World) (caller sid : String) : World × List GEvent :=
  match mapGet w.gameSessions sid with
  | none => (w, [.errorEv caller "Unauthorized or session not found"])
  | some s =>
    if s.host ≠ caller then
      (w, [.errorEv caller "Unauthorized or session not found"])
    else
      (⟨w.gameSessions.filter (fun e => e.1 ≠ sid),
        clearTimer w.pendingTimers s.gameTimer, w.nextTimerId⟩,
       [.gameClosed sid])

/-- Scan of the `disconnect` handler over the registry: the first session
whose roster contains the departing socket is processed (the loop breaks),
sessions whose roster does not contain it are left untouched — in
particular a host connection that never joined the roster matches nothing. -/
def disconnectGo (socket : String) (pend : List (Nat × String)) :
    List (String × GameSession) →
      List (String × GameSession) × List (Nat × String) × List GEvent
  | [] => ([], pend, [])
  | (sid, s) :: rest =>
    if s.players.any (fun p => p.1 = socket) then
      let s2 := s.removePlayer socket
      if s.host = socket then
        (rest, clearTimer pend s.gameTimer, [.gameAborted sid])
      else
        ((sid, s2) :: rest, pend,
         [.playersUpdated sid s2.getPlayerList s2.players.length])
    else
      let res := disconnectGo socket pend rest
      ((sid, s) :: res.1, res.2.1, res.2.2)

/-- The `disconnect` handler. -/
def handleDisconnect (w : World) (socket : String) : World × List GEvent :=
  let res := disconnectGo socket w.pendingTimers w.gameSessions
  (⟨res.1, res.2.1, w.nextTimerId⟩, res.2.2)

/-- Counting after `set`: replacing the entry at a valid index trades one
occurrence of the old value for one of the new value. -/
theorem count_set_add (c x : String) :
    ∀ (l : List String) (i : Nat), i < l.length →
      (l.set i x).count c + (if l.getD i "" = c then 1 else 0)
        = l.count c + (if x = c then 1 else 0) := by
  intro l
  induction l with
  | nil => intro i h; simp at h
  | cons a t ih =>
    intro i h
    cases i with
    | zero =>
      simp only [List.set, List.getD_cons_zero]
      simp only [List.count_cons, beq_iff_eq]
      split_ifs <;> omega
    | succ n =>
      have hn : n < t.length := by simpa using h
      have hrec := ih n hn
      simp only [List.set, List.getD_cons_succ]
      simp only [List.count_cons, beq_iff_eq]
      split_ifs at hrec ⊢ <;> omega

/-- Reading back the position `j` after writing the value that was at `j`
into any position returns that same value. -/
theorem getD_set_getD :
    ∀ (l : List String) (i j : Nat),
      (l.set i (l.getD j "")).getD j "" = l.getD j "" := by
  intro l
  induction l with
  | nil => intro i j; simp [List.set]
  | cons a t ih =>
    intro i j
    cases i with
    | zero =>
      cases j with
      | zero => simp [List.set]
      | succ m => simp [List.set, List.getD_cons_succ]
    | succ n =>
      cases j with
      | zero => simp [List.set]
      | succ m =>
        simp only [List.set, List.getD_cons_succ]
        exact ih n m

/-- Exchanging two in-range entries is a permutation. -/
theorem listSwap_perm (l : List String) (i j : Nat)
    (hi : i < l.length) (hj : j < l.length) : (listSwap l i j).Perm l := by
  rw [List.perm_iff_count]
  intro c
  have hj2 : j < (l.set i (l.getD j "")).length := by
    simpa [List.length_set] using hj
  have h1 := count_set_add c (l.getD i "") (l.set i (l.getD j "")) j hj2
  have h2 := count_set_add c (l.getD j "") l i hi
  have h3 := getD_set_getD l i j
  rw [h3] at h1
  have h4 : listSwap l i j = (l.set i (l.getD j "")).set j (l.getD i "") := rfl
  rw [h4]
  split_ifs at h1 h2 <;> omega

/-- Every step of the Fisher-Yates countdown preserves the multiset. -/
theorem shuffleAux_perm :
    ∀ (i : Nat) (l : List String) (r : Rng), i < l.length →
      (shuffleAux r l i).1.Perm l := by
  intro i
  induction i with
  | zero => intro l r _; simp [shuffleAux]
  | succ k ih =>
    intro l r h
    have hj : (getSecureRandom r (k + 2)).1 < k + 2 :=
      Nat.mod_lt _ (by omega)
    have hjlt : (getSecureRandom r (k + 2)).1 < l.length := by omega
    have hsw : (listSwap l (k + 1) (getSecureRandom r (k + 2)).1).Perm l :=
      listSwap_perm l _ _ h hjlt
    have hlen : (listSwap l (k + 1) (getSecureRandom r (k + 2)).1).length
        = l.length := by
      simp [listSwap, List.length_set]
    have hk : k < (listSwap l (k + 1) (getSecureRandom r (k + 2)).1).length := by
      omega
    have h0 : (shuffleAux r l (k + 1)).1
        = (shuffleAux (getSecureRandom r (k + 2)).2
            (listSwap l (k + 1) (getSecureRandom r (k + 2)).1) k).1 := rfl
    rw [h0]
    exact (ih _ _ hk).trans hsw

/-- `secureshuffle` returns a permutation of its input. -/
theorem secureshuffle_perm (r : Rng) (l : List String) :
    (secureshuffle r l).1.Perm l := by
  cases l with
  | nil => simp [secureshuffle, shuffleAux]
  | cons a t =>
    have h : (a :: t).length - 1 < (a :: t).length := by
      simp
    exact shuffleAux_perm _ _ r h

/-- Folding `Set.add` over fresh, duplicate-free elements appends them. -/
theorem foldl_setAdd_append :
    ∀ (xs acc : List String), xs.Nodup → (∀ x ∈ xs, x ∉ acc) →
      xs.foldl setAdd acc = acc ++ xs := by
  intro xs
  induction xs with
  | nil => intro acc _ _; simp
  | cons a t ih =>
    intro acc hnd hfr
    have ha : a ∉ acc := hfr a (List.mem_cons_self a t)
    have hstep : setAdd acc a = acc ++ [a] := by simp [setAdd, ha]
    have hnd2 := List.nodup_cons.mp hnd
    have hfr2 : ∀ x ∈ t, x ∉ acc ++ [a] := by
      intro x hx
      simp only [List.mem_append, List.mem_singleton]
      push_neg
      exact ⟨hfr x (List.mem_cons_of_mem a hx),
        fun he => hnd2.1 (he ▸ hx)⟩
    rw [List.foldl_cons, hstep, ih (acc ++ [a]) hnd2.2 hfr2,
      List.append_assoc]
    rfl

/-- Folding `Set.add` over a duplicate-free list from the empty set is the
identity. -/
theorem foldl_setAdd_nodup (xs : List String) (h : xs.Nodup) :
    xs.foldl setAdd [] = xs := by
  simpa using foldl_setAdd_append xs [] h (by simp)

/-- A successful `Map.get` means the key test succeeds somewhere. -/
theorem mapGet_any {α : Type} (m : List (String × α)) (k : String) (v : α)
    (h : mapGet m k = some v) : m.any (fun e => e.1 = k) = true := by
  rw [List.any_eq_true]
  induction m with
  | nil => simp [mapGet] at h
  | cons e t ih =>
    by_cases he : e.1 = k
    · exact ⟨e, List.mem_cons_self e t, by simp [he]⟩
    · have h2 : mapGet t k = some v := by
        have hfind : List.find? (fun q => q.1 = k) (e :: t)
            = List.find? (fun q => q.1 = k) t :=
          List.find?_cons_of_neg _ (by simp [he])
        simpa [mapGet, hfind] using h
      obtain ⟨x, hx, hpx⟩ := ih h2
      exact ⟨x, List.mem_cons_of_mem _ hx, hpx⟩

/-- Membership of a key in the map, as a propositional reading of `any`. -/
theorem mapGet_mapSet_mem {α : Type} (m : List (String × α)) (k : String)
    (v : α) (hk : m.any (fun e => e.1 = k) = true) :
    mapGet (m.map (fun e => if e.1 = k then (k, v) else e)) k = some v := by
  induction m with
  | nil => simp at hk
  | cons e t ih =>
    by_cases he : e.1 = k
    · have : (if e.1 = k then (k, v) else e) = (k, v) := by simp [he]
      simp only [List.map_cons, this, mapGet]
      rw [List.find?_cons_of_pos _ (by simp)]
      rfl
    · have hrw : (if e.1 = k then (k, v) else e) = e := by simp [he]
      have hk2 : t.any (fun e => e.1 = k) = true := by
        rcases List.any_eq_true.mp hk with ⟨x, hx, hpx⟩
        rcases List.mem_cons.mp hx with rfl | hxt
        · exact absurd (by simpa using hpx) he
        · exact List.any_eq_true.mpr ⟨x, hxt, hpx⟩
      simp only [List.map_cons, hrw, mapGet]
      rw [List.find?_cons_of_neg _ (by simp [he])]
      simpa [mapGet] using ih hk2

/-- Appending a fresh key and reading it back yields the stored value. -/
theorem mapGet_append_fresh {α : Type} (m : List (String × α)) (k : String)
    (v : α) (hk : m.any (fun e => e.1 = k) = false) :
    mapGet (m ++ [(k, v)]) k = some v := by
  induction m with
  | nil => simp [mapGet, List.find?]
  | cons e t ih =>
    have he : ¬(e.1 = k) := by
      intro hcon
      have : (e :: t).any (fun q => q.1 = k) = true :=
        List.any_eq_true.mpr ⟨e, List.mem_cons_self e t, by simp [hcon]⟩
      rw [this] at hk
      cases hk
    have ht : t.any (fun q => q.1 = k) = false := by
      cases hcase : t.any (fun q => q.1 = k) with
      | false => rfl
      | true =>
        rcases List.any_eq_true.mp hcase with ⟨x, hx, hpx⟩
        have : (e :: t).any (fun q => q.1 = k) = true :=
          List.any_eq_true.mpr ⟨x, List.mem_cons_of_mem _ hx, hpx⟩
        rw [this] at hk
        cases hk
    simp only [List.cons_append, mapGet]
    rw [List.find?_cons_of_neg _ (by simp [he])]
    simpa [mapGet] using ih ht

/-- Reading a key back after `Map.set` yields the stored value. -/
theorem mapGet_mapSet_self {α : Type} (m : List (String × α)) (k : String)
    (v : α) : mapGet (mapSet m k v) k = some v := by
  unfold mapSet
  split_ifs with hk
  · exact mapGet_mapSet_mem m k v hk
  · have hk2 : m.any (fun e => e.1 = k) = false := by
      cases hcase : m.any (fun e => e.1 = k) with
      | false => rfl
      | true => exact absurd hcase hk
    exact mapGet_append_fresh m k v hk2

/-- `Map.set` of a key that is present keeps the map's size. -/
theorem mapSet_length_of_mem {α : Type} (m : List (String × α)) (k : String)
    (v : α) (h : m.any (fun e => e.1 = k) = true) :
    (mapSet m k v).length = m.length := by
  simp [mapSet, h]

/-- Random source whose stream is constantly zero, used for the concrete
runs below. -/
def rngZero : Rng := ⟨fun _ => 0, 0⟩

/-- A lobby session with host `H` (not on the roster) and four joined
players. -/
def demo4 : GameSession :=
  { GameSession.new "AB12CD" 10 "H" with
    players := [("A", ⟨"A", "Alice", false⟩), ("B", ⟨"B", "Bob", false⟩),
                ("C", ⟨"C", "Cara", false⟩), ("D", ⟨"D", "Dan", false⟩)],
    allPlayerNicknames := ["Alice", "Bob", "Cara", "Dan"] }

/-- Claim C6: for every roster of size at least 4, immediately after role
assignment the number of spies equals `max(floor(n / 3), 1)` for the roster
size `n` at assignment time, and every spy socket id is a roster member.
The roster keys are assumed duplicate-free, which the JavaScript `Map`
guarantees. -/
theorem C6_spy_count_and_subset (s : GameSession) (r : Rng)
    (hnd : (s.players.map Prod.fst).Nodup) (h4 : 4 ≤ s.players.length) :
    ((s.selectSpies r).1.spies.length = max (s.players.length / 3) 1) ∧
    (∀ id ∈ (s.selectSpies r).1.spies, id ∈ s.players.map Prod.fst) := by
  have hs : (s.selectSpies r).1.spies
      = ((secureshuffle r (s.players.map Prod.fst)).1.take
          (max ((s.players.map Prod.fst).length / 3) 1)).foldl setAdd [] := rfl
  have hperm := secureshuffle_perm r (s.players.map Prod.fst)
  have hmaplen : (s.players.map Prod.fst).length = s.players.length :=
    List.length_map ..
  have hlen : (secureshuffle r (s.players.map Prod.fst)).1.length
      = s.players.length := by rw [hperm.length_eq, hmaplen]
  have hnd2 : (secureshuffle r (s.players.map Prod.fst)).1.Nodup :=
    hperm.symm.nodup hnd
  have hndTake : ((secureshuffle r (s.players.map Prod.fst)).1.take
      (max ((s.players.map Prod.fst).length / 3) 1)).Nodup :=
    hnd2.sublist (List.take_sublist _ _)
  have hfold := foldl_setAdd_nodup _ hndTake
  have hbound : max (s.players.length / 3) 1 ≤ s.players.length := by
    have := Nat.div_le_self s.players.length 3
    omega
  constructor
  · rw [hs, hfold, List.length_take, hlen, hmaplen]
    omega
  · intro id hid
    rw [hs, hfold] at hid
    exact hperm.mem_iff.mp (List.take_subset _ _ hid)

/-- Concrete instance of C6 on a four-player roster. -/
theorem C6_spy_count_and_subset_witness :
    (demo4.selectSpies rngZero).1.spies.length
      = max (demo4.players.length / 3) 1 :=
  (C6_spy_count_and_subset demo4 rngZero (by decide) (by decide)).1

/-- Claim C7: the round-end reveal carries every nickname that was a spy at
role-assignment time even across disconnections: `removePlayer` leaves
`spyNicknames` and `allPlayerNicknames` unchanged, any sequence of removals
after role assignment leaves `getSpyNicknames` at its assignment-time value,
and the timer callback broadcasts `gameEnded` with exactly the persistent
spy-nickname snapshot of the session. -/
theorem C7_spy_reveal_persistence :
    (∀ (s : GameSession) (socketId : String),
        (s.removePlayer socketId).spyNicknames = s.spyNicknames ∧
        (s.removePlayer socketId).allPlayerNicknames = s.allPlayerNicknames) ∧
    (∀ (s : GameSession) (r : Rng) (ids : List String),
        (ids.foldl GameSession.removePlayer
            (s.selectSpies r).1).getSpyNicknames
          = ((s.selectSpies r).1).getSpyNicknames) ∧
    (∀ (w : World) (tid : Nat) (sid : String) (s : GameSession),
        w.pendingTimers.find? (fun p => p.1 = tid) = some (tid, sid) →
        mapGet w.gameSessions sid = some s →
        (fireTimer w tid).2 = [.gameEnded sid s.getSpyNicknames]) := by
  have hfold : ∀ (ids : List String) (t : GameSession),
      (ids.foldl GameSession.removePlayer t).spyNicknames = t.spyNicknames := by
    intro ids
    induction ids with
    | nil => intro t; rfl
    | cons a tl ih => intro t; rw [List.foldl_cons]; exact ih _
  refine ⟨fun s socketId => ⟨rfl, rfl⟩, ?_, ?_⟩
  · intro s r ids
    exact hfold ids _
  · intro w tid sid s hfind hget
    unfold fireTimer
    rw [hfind]
    simp only []
    rw [show mapGet w.gameSessions (tid, sid).2 = some s from hget]
    rfl

/-- A round-in-progress world with spy nickname snapshot `Bob` and one
pending timer. -/
def w7session : GameSession :=
  { demo4 with
    spies := ["B"]
    spyNicknames := ["Bob"]
    phase := .game
    gameTimer := some 0
    registrationOpen := false }

/-- World holding `w7session` with its timer still pending. -/
def w7 : World := ⟨[("AB12CD", w7session)], [(0, "AB12CD")], 1⟩

/-- Concrete instance of C7: firing the pending timer reveals the snapshot. -/
theorem C7_spy_reveal_persistence_witness :
    (fireTimer w7 0).2 = [.gameEnded "AB12CD" w7session.getSpyNicknames] :=
  C7_spy_reveal_persistence.2.2 w7 0 "AB12CD" w7session rfl rfl

/-- Claim C8: every host-only command issued by a connection other than the
recorded host answers with the unauthorized error and leaves the world (and
the random source) untouched. -/
theorem C8_host_only_commands (words : List String) (w : World)
    (caller sid : String) (s : GameSession) (live : String → Bool) (r : Rng)
    (fuel now : Nat) (hs : mapGet w.gameSessions sid = some s)
    (hneq : s.host ≠ caller) :
    handleStartGame words w caller sid live r fuel
        = .done w [.errorEv caller "Unauthorized or session not found"] r ∧
    handleStartTimer w caller sid now
        = (w, [.errorEv caller "Unauthorized or invalid session state"]) ∧
    handleNewRound words w caller sid live r fuel
        = .done w [.errorEv caller "Unauthorized or session not found"] r ∧
    handleAbortGame w caller sid
        = (w, [.errorEv caller "Unauthorized or session not found"]) ∧
    handleCloseGame w caller sid
        = (w, [.errorEv caller "Unauthorized or session not found"]) := by
  refine ⟨?_, ?_, ?_, ?_, ?_⟩
  · unfold handleStartGame
    rw [hs]
    simp [hneq]
  · unfold handleStartTimer
    rw [hs]
    simp [hneq]
  · unfold handleNewRound
    rw [hs]
    simp [hneq]
  · unfold handleAbortGame
    rw [hs]
    simp [hneq]
  · unfold handleCloseGame
    rw [hs]
    simp [hneq]

/-- Registry with the four-player lobby session, used by several concrete
runs. -/
def w8 : World := ⟨[("AB12CD", demo4)], [], 0⟩

/-- Concrete instance of C8: a non-host calling `abortGame` is refused and
the world is unchanged. -/
theorem C8_host_only_commands_witness :
    handleAbortGame w8 "X" "AB12CD"
      = (w8, [.errorEv "X" "Unauthorized or session not found"]) :=
  (C8_host_only_commands [] w8 "X" "AB12CD" demo4 (fun _ => true) rngZero
    5 0 rfl (by decide)).2.2.2.1

/-- Claim C10: a freshly created session has an empty roster with the
creator recorded only as `host`, `createSession` registers exactly such a
session, and the four-player minimum of `startGame` counts only roster
entries — a host that never joined is not counted. -/
theorem C10_roster_excludes_host (words : List String) (w : World)
    (caller sid : String) (d : Nat) (r : Rng) (s : GameSession)
    (live : String → Bool) (fuel : Nat)
    (hd : ¬(d = 0 ∨ d < 5 ∨ 60 < d))
    (hs : mapGet w.gameSessions sid = some s) (hhost : s.host = caller)
    (hsize : s.players.length < 4) :
    ((GameSession.new sid d caller).players = [] ∧
     (GameSession.new sid d caller).host = caller ∧
     mapGet ((handleCreateSession w caller d r).1.gameSessions)
        (generateSessionId r).1
       = some (GameSession.new (generateSessionId r).1 d caller)) ∧
    handleStartGame words w caller sid live r fuel
      = .done w [.errorEv caller "Minimum 4 players required"] r := by
  constructor
  · refine ⟨rfl, rfl, ?_⟩
    unfold handleCreateSession
    rw [if_neg hd]
    exact mapGet_mapSet_self ..
  · unfold handleStartGame
    rw [hs]
    simp [hhost, hsize]

/-- A lobby session with only three joined players and host `H` outside the
roster. -/
def demo3 : GameSession :=
  { GameSession.new "EF34AB" 10 "H" with
    players := [("A", ⟨"A", "Alice", false⟩), ("B", ⟨"B", "Bob", false⟩),
                ("C", ⟨"C", "Cara", false⟩)],
    allPlayerNicknames := ["Alice", "Bob", "Cara"] }

/-- Registry with the three-player lobby session. -/
def w10 : World := ⟨[("EF34AB", demo3)], [], 0⟩

/-- Concrete instance of C10: with three joined players the host's own
connection does not count towards the minimum and `startGame` is refused. -/
theorem C10_roster_excludes_host_witness :
    handleStartGame ["alpha"] w10 "H" "EF34AB" (fun _ => true) rngZero 5
      = .done w10 [.errorEv "H" "Minimum 4 players required"] rngZero :=
  (C10_roster_excludes_host ["alpha"] w10 "H" "EF34AB" 10 rngZero demo3
    (fun _ => true) 5 (by decide) rfl rfl (by decide)).2

/-- The disconnect scan, run on a registry whose first socket-containing
entry has the departing socket as host, deletes exactly that entry, clears
its stored timer and emits the abort broadcast. -/
theorem disconnectGo_abort (socket sid : String) (s : GameSession)
    (pend : List (Nat × String)) :
    ∀ (pre post : List (String × GameSession)),
      (∀ e ∈ pre, e.2.players.any (fun p => p.1 = socket) = false) →
      s.players.any (fun p => p.1 = socket) = true →
      s.host = socket →
      disconnectGo socket pend (pre ++ (sid, s) :: post)
        = (pre ++ post, clearTimer pend s.gameTimer, [.gameAborted sid]) := by
  intro pre
  induction pre with
  | nil =>
    intro post _ hmem hhost
    simp [disconnectGo, hmem, hhost]
  | cons e t ih =>
    intro post hpre hmem hhost
    obtain ⟨esid, es⟩ := e
    have he : es.players.any (fun p => p.1 = socket) = false :=
      hpre (esid, es) (List.mem_cons_self ..)
    have ht : ∀ q ∈ t, q.2.players.any (fun p => p.1 = socket) = false :=
      fun q hq => hpre q (List.mem_cons_of_mem _ hq)
    have hrec := ih post ht hmem hhost
    simp only [List.cons_append, disconnectGo, he]
    simp [hrec]

/-- Claim C2 (amended): when the connection recorded as host disconnects
while being a roster member of its session (and of no earlier-registered
session), that session is removed from the registry, its stored round timer
is cancelled and `gameAborted` is broadcast. A host connection that never
joined the roster matches no session in the disconnect scan, so its session
stays registered (see the counterexample). -/
theorem C2_host_disconnect_amended (socket sid : String) (s : GameSession)
    (pre post : List (String × GameSession)) (pend : List (Nat × String))
    (nid : Nat)
    (hpre : ∀ e ∈ pre, e.2.players.any (fun p => p.1 = socket) = false)
    (hmem : s.players.any (fun p => p.1 = socket) = true)
    (hhost : s.host = socket) :
    handleDisconnect ⟨pre ++ (sid, s) :: post, pend, nid⟩ socket
      = (⟨pre ++ post, clearTimer pend s.gameTimer, nid⟩,
         [.gameAborted sid]) := by
  unfold handleDisconnect
  rw [disconnectGo_abort socket sid s pend pre post hpre hmem hhost]

/-- Claim C2 fails as stated: session `AB12CD` has host `H` who never
joined the roster; when `H` disconnects, the disconnect scan matches no
session, so the session is not removed and nothing is broadcast. -/
theorem C2_counterexample :
    demo4.host = "H" ∧
    (demo4.players.map Prod.fst).contains "H" = false ∧
    (handleDisconnect w8 "H").1.gameSessions.map Prod.fst = ["AB12CD"] ∧
    (handleDisconnect w8 "H").2 = [] := by
  refine ⟨rfl, by decide, by decide, by decide⟩

/-- Session owned and joined by host `A`, holding a live timer handle. -/
def c2session : GameSession :=
  { demo4 with
    host := "A"
    gameTimer := some 3 }

/-- World holding `c2session` with its timer pending. -/
def c2w2 : World := ⟨[("CD56EF", c2session)], [(3, "CD56EF")], 7⟩

/-- Concrete instance of the amended C2: a roster-member host disconnect
removes the session, clears its timer and broadcasts the abort. -/
theorem C2_host_disconnect_amended_witness :
    handleDisconnect c2w2 "A" = (⟨[], [], 7⟩, [.gameAborted "CD56EF"]) := by
  have h := C2_host_disconnect_amended "A" "CD56EF" c2session [] []
    [(3, "CD56EF")] 7 (by simp) rfl rfl
  simpa using h

/-- Claim C5 (amended): `createSession` performs no collision handling:
with a valid duration it always emits a success event and stores the fresh
session under the generated code, so when that code is already registered
the registry size is unchanged and the previously stored session has been
silently replaced by the new one. -/
theorem C5_create_overwrites (w : World) (caller : String) (d : Nat)
    (r : Rng) (sOld : GameSession) (hd : ¬(d = 0 ∨ d < 5 ∨ 60 < d))
    (hcol : mapGet w.gameSessions (generateSessionId r).1 = some sOld) :
    (handleCreateSession w caller d r).1.gameSessions.length
        = w.gameSessions.length ∧
    mapGet (handleCreateSession w caller d r).1.gameSessions
        (generateSessionId r).1
      = some (GameSession.new (generateSessionId r).1 d caller) ∧
    (handleCreateSession w caller d r).2.1
      = [.sessionCreated caller (generateSessionId r).1] := by
  unfold handleCreateSession
  rw [if_neg hd]
  exact ⟨mapSet_length_of_mem _ _ _ (mapGet_any _ _ _ hcol),
    mapGet_mapSet_self .., rfl⟩

/-- Registry produced by a first `createSession` from host `H1` with the
all-zero random stream: one session under code `000000`. -/
def c5w1 : World := (handleCreateSession ⟨[], [], 0⟩ "H1" 10 rngZero).1

/-- A second `createSession` from host `H2` drawing the same bytes. -/
def c5run2 : World × List GEvent × Rng :=
  handleCreateSession c5w1 "H2" 10 rngZero

/-- Claim C5 fails as stated: the second creation collides on code `000000`
and silently overwrites the session of `H1` — the registry still holds one
session, now owned by `H2`, and a plain success event is emitted instead of
a retry or an error. -/
theorem C5_counterexample :
    (mapGet c5w1.gameSessions "000000").map (fun t => t.host) = some "H1" ∧
    c5w1.gameSessions.length = 1 ∧
    (mapGet c5run2.1.gameSessions "000000").map (fun t => t.host)
      = some "H2" ∧
    c5run2.1.gameSessions.length = 1 ∧
    c5run2.2.1 = [.sessionCreated "H2" "000000"] := by
  refine ⟨rfl, rfl, rfl, rfl, rfl⟩

/-- Concrete instance of the amended C5: creating over the occupied code
`000000` keeps the registry size at one and stores the session of the new host. -/
theorem C5_create_overwrites_witness :
    c5run2.1.gameSessions.length = c5w1.gameSessions.length ∧
    mapGet c5run2.1.gameSessions "000000"
      = some (GameSession.new "000000" 10 "H2") :=
  ⟨(C5_create_overwrites c5w1 "H2" 10 rngZero (GameSession.new "000000" 10 "H1")
      (by decide) rfl).1,
   (C5_create_overwrites c5w1 "H2" 10 rngZero (GameSession.new "000000" 10 "H1")
      (by decide) rfl).2.1⟩

/-- Claim C9 (amended): server-side, a join succeeds exactly when
registration is open, the nickname field is a non-empty string, and its
lowercased, trimmed form differs from that of every active roster member —
the 20-character limit (and the character-set check) live only in the
client-side validator and are not enforced by the server; a duplicate
against an active member is refused with the conflict error. Nicknames of
disconnected former members are absent from `players`, so they do not block
the join. -/
theorem C9_join_amended (w : World) (caller sid nick : String)
    (s : GameSession) (hsid : sid ≠ "")
    (hs : mapGet w.gameSessions sid = some s) :
    (((handleJoinSession w caller sid nick).2.any GEvent.isJoined = true) ↔
      (s.registrationOpen = true ∧ nick ≠ "" ∧
        ∀ p ∈ s.players,
          normNick p.2.nickname ≠ normNick nick)) ∧
    (s.registrationOpen = true → nick ≠ "" →
      s.players.any
        (fun p => normNick p.2.nickname = normNick nick) = true →
      (handleJoinSession w caller sid nick).2
        = [.errorEv caller "Nickname already taken"]) := by
  by_cases hn : nick = ""
  · subst hn
    have hev : (handleJoinSession w caller sid "").2
        = [.errorEv caller "Session ID and nickname are required"] := by
      simp [handleJoinSession]
    rw [hev]
    refine ⟨?_, ?_⟩
    · simp [GEvent.isJoined]
    · intro _ hcon _
      exact absurd rfl hcon
  · by_cases hreg : s.registrationOpen = true
    · cases hdup : s.players.any
          (fun p => normNick p.2.nickname = normNick nick) with
      | true =>
        have hev : (handleJoinSession w caller sid nick).2
            = [.errorEv caller "Nickname already taken"] := by
          simp [handleJoinSession, GameSession.addPlayer, hsid, hn, hs,
            hreg, hdup]
        rw [hev]
        obtain ⟨p, hp, hpeq⟩ := List.any_eq_true.mp hdup
        refine ⟨?_, fun _ _ _ => rfl⟩
        constructor
        · intro hfalse
          simp [GEvent.isJoined] at hfalse
        · rintro ⟨-, -, hall⟩
          exact absurd (by simpa using hpeq) (hall p hp)
      | false =>
        have hall : ∀ p ∈ s.players,
            normNick p.2.nickname ≠ normNick nick := by
          intro p hp
          have := List.any_eq_false.mp hdup p hp
          simpa using this
        have hok : s.addPlayer caller nick
            = .ok { s with
                players := mapSet s.players caller
                  ⟨caller, nick, decide (caller = s.host)⟩,
                allPlayerNicknames := setAdd s.allPlayerNicknames nick } := by
          simp [GameSession.addPlayer, hreg, hdup]
        have hev : (handleJoinSession w caller sid nick).2.any GEvent.isJoined
            = true := by
          simp [handleJoinSession, hsid, hn, hs, hok, GEvent.isJoined]
        refine ⟨?_, ?_⟩
        · rw [hev]
          exact ⟨fun _ => ⟨hreg, hn, hall⟩, fun _ => rfl⟩
        · intro _ _ hcon
          exact absurd hcon (by simp [hdup])
    · have hregf : s.registrationOpen = false := by
        cases hcase : s.registrationOpen with
        | false => rfl
        | true => exact absurd hcase hreg
      have hev : (handleJoinSession w caller sid nick).2
          = [.errorEv caller "Registration is closed"] := by
        simp [handleJoinSession, GameSession.addPlayer, hsid, hn, hs, hregf]
      rw [hev]
      refine ⟨?_, ?_⟩
      · simp only [List.any_cons, List.any_nil, GEvent.isJoined]
        constructor
        · intro hfalse
          simp at hfalse
        · rintro ⟨hcon, -, -⟩
          exact absurd hcon hreg
      · intro hcon _ _
        exact absurd hcon hreg

/-- Fresh empty-roster session used for the C9 counterexample. -/
def c9session : GameSession := GameSession.new "AB12CD" 10 "H"

/-- Registry holding the fresh session. -/
def c9w : World := ⟨[("AB12CD", c9session)], [], 0⟩

/-- A 21-character nickname. -/
def longNick : String := "AAAAAAAAAAAAAAAAAAAAA"

/-- Claim C9 fails as stated: the server happily accepts a 21-character
nickname (the at-most-20 condition is checked only client-side), so the
join does not succeed `exactly when` the claimed conditions hold. -/
theorem C9_counterexample :
    longNick.length = 21 ∧
    (handleJoinSession c9w "P" "AB12CD" longNick).2.any GEvent.isJoined
      = true ∧
    (mapGet (handleJoinSession c9w "P" "AB12CD" longNick).1.gameSessions
        "AB12CD").map (fun t => t.players.map Prod.fst) = some ["P"] := by
  refine ⟨rfl, rfl, rfl⟩

/-- Concrete instance of the amended C9: joining as `BOB` while `Bob` is an
active roster member is refused with the conflict error. -/
theorem C9_join_amended_witness :
    (handleJoinSession w8 "E" "AB12CD" "BOB").2
      = [.errorEv "E" "Nickname already taken"] :=
  (C9_join_amended w8 "E" "AB12CD" "BOB" demo4 (by decide) rfl).2 rfl
    (by decide) (by decide)

/-- Two-word pool for the repeated-word run. -/
def c1words : List String := ["alpha", "beta"]

/-- First round: `startGame` on the four-player lobby with the all-zero
random stream. -/
def c1run1 : HResult :=
  handleStartGame c1words w8 "H" "AB12CD" (fun _ => true) rngZero 5

/-- Second round: `newRound` on the resulting world, again drawing zeros. -/
def c1run2 : HResult :=
  handleNewRound c1words c1run1.worldOf "H" "AB12CD" (fun _ => true)
    rngZero 5

/-- Claim C1 fails in the code: with the pool `[alpha, beta]` of size two,
`startGame` selects `alpha` and the following `newRound` selects `alpha`
again. The draw loop compares against `previousWord`, which is rotated to
the old `currentWord` only after the loop, so at draw time it still holds
the word of round k-1 (here `null`) and the round-k word is not excluded. -/
theorem C1_word_repeats :
    c1words.length > 1 ∧
    c1run1.isDone = true ∧
    (mapGet c1run1.worldOf.gameSessions "AB12CD").map
        (fun t => t.currentWord) = some (some "alpha") ∧
    c1run2.isDone = true ∧
    (mapGet c1run2.worldOf.gameSessions "AB12CD").map
        (fun t => t.currentWord) = some (some "alpha") := by
  refine ⟨by decide, rfl, rfl, rfl, rfl⟩

/-- `startGame` against an empty word pool on the four-player lobby. -/
def c3run : HResult :=
  handleStartGame [] w8 "H" "AB12CD" (fun _ => true) rngZero 5

/-- Claim C3 fails in the code: with an empty pool, `startGame` lets the
`No words available` exception escape uncaught — no error event reaches the
caller — after `registrationOpen` has already been flipped to false and the
spy sets rebuilt, a partial mutation of session state. -/
theorem C3_empty_pool_incomplete_mutation :
    c3run.crashMsg = some "No words available" ∧
    c3run.eventsOf = [] ∧
    (mapGet c3run.worldOf.gameSessions "AB12CD").map
        (fun t => t.registrationOpen) = some false ∧
    (mapGet w8.gameSessions "AB12CD").map
        (fun t => t.registrationOpen) = some true ∧
    (mapGet c3run.worldOf.gameSessions "AB12CD").map (fun t => t.spies)
      = some ["B"] ∧
    (mapGet w8.gameSessions "AB12CD").map (fun t => t.spies) = some [] := by
  refine ⟨rfl, rfl, rfl, rfl, rfl, rfl⟩

/-- The four-player session already in the game phase. -/
def c4session : GameSession :=
  { demo4 with
    phase := .game
    registrationOpen := false }

/-- World holding the in-game session, no timers yet. -/
def c4w : World := ⟨[("AB12CD", c4session)], [], 0⟩

/-- World after the host's first `startTimer`. -/
def c4w1 : World := (handleStartTimer c4w "H" "AB12CD" 100).1

/-- World after the host's second `startTimer`. -/
def c4w2 : World := (handleStartTimer c4w1 "H" "AB12CD" 200).1

/-- Claim C4 fails in the code: `startTimer` schedules a new round-end
timeout without clearing the stored one, so after two calls two timers are
outstanding, and the stale first timer still fires — ending the round and
broadcasting `gameEnded`. -/
theorem C4_two_pending_timers :
    c4w2.pendingTimers = [(0, "AB12CD"), (1, "AB12CD")] ∧
    c4w2.pendingTimers.length = 2 ∧
    (fireTimer c4w2 0).2 = [.gameEnded "AB12CD" []] ∧
    (mapGet (fireTimer c4w2 0).1.gameSessions "AB12CD").map
        (fun t => t.phase) = some .ended := by
  refine ⟨rfl, rfl, rfl, rfl⟩

end SpyServer
